import Mathlib

/-!
Verification of the relay state machine of the gemini-live-api repository
(`src/audio-to-audio-architecture/`).  The repository contains two live
variants of the relay:

* `archive/main.py` — the full variant: bounded ingress queue
  (`asyncio.Queue(maxsize=8)`), base64 `audio` control frames, `end`
  sentinel, direct `text` forwarding, `turn_complete`/`ready_for_input`
  pairing, explicit supervisor (`asyncio.wait` + cancel + gather).
  Embedded below under the `Main` prefix.
* `server.py` — the simple variant: unbounded queue
  (`asyncio.Queue()`), raw binary audio frames, `end`/`text` frames only
  logged, interruption reporting, no `ready_for_input`.
  Embedded below under the `Server` prefix.

`common.py` provides the shared connection handler (ready frame, registry
teardown); it is embedded at top level.
-/

/-- Raw byte strings are modelled as lists of byte values. -/
abbrev Bytes := List Nat

/-- Parsed JSON control frames, as the two routers inspect them.
`audio` carries the base64-decoded payload of the `data` field and the
optional `rate` field; `text` carries the `data` string; `unknown` is any
other value of the `type` field. -/
inductive Ctl
  | audio (data : Bytes) (rate : Option Nat)
  | endTurn
  | text (data : String)
  | close
  | unknown (ty : String)
deriving DecidableEq

/-- One frame arriving on the client websocket: a raw binary frame, a
text frame that parses as JSON (already classified into `Ctl`), or a text
frame whose JSON parse fails (`json.JSONDecodeError`). -/
inductive Frame
  | binary (data : Bytes)
  | ctl (c : Ctl)
  | invalid
deriving DecidableEq

/-- Calls made on the remote Gemini session object. -/
inductive BackendCall
  | sendRealtimeAudio (data : Bytes) (rate : Nat)
  | commitTurn
  | sendTextTurn (data : String)
deriving DecidableEq

/-- The shape of a backend call, forgetting the sample-rate tag. -/
inductive CallKind
  | forward (data : Bytes)
  | commit
  | textTurn
deriving DecidableEq

/-- Project a backend call to its kind. -/
def callKindOf : BackendCall → CallKind
  | BackendCall.sendRealtimeAudio b _ => CallKind.forward b
  | BackendCall.commitTurn => CallKind.commit
  | BackendCall.sendTextTurn _ => CallKind.textTurn

/-- Effect of routing one inbound frame: items enqueued onto the audio
ingress queue (of item type `ι`), direct backend calls made, and whether
the router loop stops (`break`). -/
structure RouteEffect (ι : Type) where
  enq : List ι
  calls : List BackendCall
  stop : Bool
deriving DecidableEq

/-- Queue items of `archive/main.py`: `(audio_bytes, sr)` tuples, with
`none` as the end-of-turn sentinel (`await audio_queue.put(None)`). -/
abbrev MainItem := Option (Bytes × Nat)

/-- Effective sample rate in `archive/main.py`:
`sr = int(data.get("rate") or client_sample_rate)` — an absent or falsy
(zero) `rate` field keeps the current client sample rate. -/
def Main.effectiveRate (csr : Nat) (r : Option Nat) : Nat :=
  match r with
  | none => csr
  | some v => if v = 0 then csr else v

/-- Routing of one parsed control frame by `ws_reader` in
`archive/main.py` (lines 96-128).  Returns the updated
`client_sample_rate` and the effect. -/
def Main.routeCtl (csr : Nat) : Ctl → Nat × RouteEffect MainItem
  | Ctl.audio d r =>
      if d = [] then (csr, ⟨[], [], false⟩)
      else
        (Main.effectiveRate csr r,
          ⟨[some (d, Main.effectiveRate csr r)], [], false⟩)
  | Ctl.endTurn => (csr, ⟨[(none : MainItem)], [], false⟩)
  | Ctl.text s =>
      (csr, ⟨[], if s = "" then [] else [BackendCall.sendTextTurn s], false⟩)
  | Ctl.close => (csr, ⟨[], [], true⟩)
  | Ctl.unknown _ => (csr, ⟨[], [], false⟩)

/-- Routing of one raw frame by `ws_reader` in `archive/main.py`.  Every
message goes through `json.loads`; a raw PCM binary frame is not valid
JSON text, so it raises `json.JSONDecodeError`, which is caught and the
loop continues (lines 90-94). -/
def Main.routeFrame (csr : Nat) : Frame → Nat × RouteEffect MainItem
  | Frame.binary _ => (csr, ⟨[], [], false⟩)
  | Frame.invalid => (csr, ⟨[], [], false⟩)
  | Frame.ctl c => Main.routeCtl csr c

/-- Items enqueued onto the audio ingress queue by `ws_reader` while
processing a list of frames, threading the client sample rate and
stopping when a frame breaks the loop. -/
def Main.routeItems : Nat → List Frame → List MainItem
  | _, [] => []
  | csr, f :: fs =>
      (Main.routeFrame csr f).2.enq ++
        (if (Main.routeFrame csr f).2.stop then []
         else Main.routeItems (Main.routeFrame csr f).1 fs)

/-- Backend calls issued by `audio_sender` in `archive/main.py`
(lines 136-172) while draining the given sequence of queue items in FIFO
order: a chunk is forwarded with `session.send_realtime_input`, the
`None` sentinel issues `session.send(end_of_turn=True)`. -/
def Main.senderTrace : List MainItem → List BackendCall
  | [] => []
  | (none : MainItem) :: rest => BackendCall.commitTurn :: Main.senderTrace rest
  | some (b, sr) :: rest =>
      BackendCall.sendRealtimeAudio b sr :: Main.senderTrace rest

/-- Routing of one raw frame by `handle_websocket_messages` in
`server.py` (lines 60-79): binary frames are enqueued as bare bytes;
`end` and `text` control frames are only logged; invalid JSON is caught
and the loop continues.  No frame makes a backend call and none stops the
loop. -/
def Server.routeFrame : Frame → RouteEffect Bytes
  | Frame.binary b => ⟨[b], [], false⟩
  | Frame.invalid => ⟨[], [], false⟩
  | Frame.ctl _ => ⟨[], [], false⟩

/-- Fixed rate used by `process_and_send_audio` in `server.py`:
`mime_type = "audio/pcm;rate=SEND_SAMPLE_RATE"` with
`SEND_SAMPLE_RATE = 16000`. -/
def Server.SEND_SAMPLE_RATE : Nat := 16000

/-- Backend calls issued by `process_and_send_audio` in `server.py`
(lines 82-94) while draining the queue: every item is forwarded at the
fixed 16000 rate; there is no sentinel and no commit call. -/
def Server.senderTrace (items : List Bytes) : List BackendCall :=
  items.map (fun b => BackendCall.sendRealtimeAudio b Server.SEND_SAMPLE_RATE)

/-- C6 counterexample: in `server.py` (lines 73-75) a `text` control
frame with non-empty payload is only logged — no backend call is made and
nothing is enqueued, so the claim that the router sends the text to the
remote session as one complete turn in every variant of the relay fails
on this variant at the concrete frame `text "explain gravity"`. -/
theorem c6_counterexample :
    Server.routeFrame (Frame.ctl (Ctl.text "explain gravity")) =
      ⟨[], [], false⟩ := rfl

/-- C6 amended: in the `archive/main.py` variant, a `text` control frame
with non-empty payload makes exactly one complete-turn text call on the
remote session (`session.send(input=text, end_of_turn=True)`), places no
item on the audio ingress queue and produces no sentinel; the `server.py`
variant only logs such frames. -/
theorem c6_amended (csr : Nat) (s : String) (h : s ≠ "") :
    Main.routeCtl csr (Ctl.text s) =
      (csr, ⟨[], [BackendCall.sendTextTurn s], false⟩) := by
  simp [Main.routeCtl, h]

/-- C6 witness: the amended theorem at the spec's concrete scenario
frame `text "explain gravity"`. -/
theorem c6_amended_witness :
    Main.routeCtl 16000 (Ctl.text "explain gravity") =
      (16000, ⟨[], [BackendCall.sendTextTurn "explain gravity"], false⟩) :=
  c6_amended 16000 "explain gravity" (by decide)

/-- C7: in both variants, a frame with invalid JSON and a control frame
with an unrecognized `type` are dropped: nothing is enqueued, no backend
call is made, the client sample rate is unchanged and the router loop
continues (`stop = false`). -/
theorem c7_malformed (csr : Nat) (ty : String) :
    Main.routeFrame csr Frame.invalid = (csr, ⟨[], [], false⟩)
    ∧ Main.routeFrame csr (Frame.ctl (Ctl.unknown ty)) = (csr, ⟨[], [], false⟩)
    ∧ Server.routeFrame Frame.invalid = ⟨[], [], false⟩
    ∧ Server.routeFrame (Frame.ctl (Ctl.unknown ty)) = ⟨[], [], false⟩ :=
  ⟨rfl, rfl, rfl, rfl⟩

/-- C8 counterexample: in `archive/main.py` every message is fed to
`json.loads` (line 91); a raw binary PCM frame such as the bytes
`[0, 1, 2, 3]` is not valid JSON, so it raises `json.JSONDecodeError`
and is dropped (lines 92-94) — it is treated exactly like a malformed
control frame and is never enqueued, refuting the claim that every raw
binary frame is enqueued onto the audio ingress queue. -/
theorem c8_counterexample :
    Main.routeFrame 16000 (Frame.binary [0, 1, 2, 3]) =
      (16000, ⟨[], [], false⟩) := rfl

/-- C8 amended: in the `server.py` variant every raw binary frame is
enqueued onto the audio ingress queue as bare bytes (not dropped, not
treated as malformed), and the sender forwards it to the remote session
tagged with the fixed session rate 16000; in the `archive/main.py`
variant binary frames are dropped as invalid JSON. -/
theorem c8_amended (b : Bytes) :
    Server.routeFrame (Frame.binary b) = ⟨[b], [], false⟩
    ∧ Server.senderTrace [b] =
        [BackendCall.sendRealtimeAudio b Server.SEND_SAMPLE_RATE] :=
  ⟨rfl, rfl⟩

/-- C1: for every sequence of audio chunks (non-empty payloads, any
optional rate fields) followed by an `end` frame, the items enqueued by
`ws_reader` and drained in FIFO order by `audio_sender` produce exactly
the chunks' forward calls in submission order followed by exactly one
commit call, which is the last call issued. -/
theorem c1_ordering (csr : Nat) (chunks : List (Bytes × Option Nat))
    (h : ∀ c ∈ chunks, c.1 ≠ []) :
    (Main.senderTrace (Main.routeItems csr
        (chunks.map (fun c => Frame.ctl (Ctl.audio c.1 c.2)) ++
          [Frame.ctl Ctl.endTurn]))).map callKindOf
      = chunks.map (fun c => CallKind.forward c.1) ++ [CallKind.commit] := by
  induction chunks generalizing csr with
  | nil =>
      simp [Main.routeItems, Main.routeFrame, Main.routeCtl, Main.senderTrace,
        callKindOf]
  | cons c rest ih =>
      have hc : c.1 ≠ [] := h c (List.mem_cons_self c rest)
      have hrest : ∀ x ∈ rest, x.1 ≠ [] := fun x hx => h x (List.mem_cons_of_mem c hx)
      simp only [List.map_cons, List.cons_append, Main.routeItems,
        Main.routeFrame, Main.routeCtl, if_neg hc, Main.senderTrace]
      simp [Main.senderTrace, callKindOf, ih _ hrest]

/-- A concrete ten-byte chunk, matching the spec's scenario of 10-byte
chunks at rate 16000. -/
def tenBytes : Bytes := List.replicate 10 0

/-- C1 witness: the spec's scenario — three 10-byte chunks at rate 16000
followed by `end` yield three sequential forwards then one commit. -/
theorem c1_ordering_witness :
    (Main.senderTrace (Main.routeItems 16000
        (([(tenBytes, some 16000), (tenBytes, some 16000),
           (tenBytes, some 16000)]).map
            (fun c => Frame.ctl (Ctl.audio c.1 c.2)) ++
          [Frame.ctl Ctl.endTurn]))).map callKindOf
      = ([(tenBytes, some 16000), (tenBytes, some 16000),
          (tenBytes, some 16000)]).map (fun c => CallKind.forward c.1) ++
          [CallKind.commit] :=
  c1_ordering 16000 _ (by decide)

/-- The optional `server_content` payload of one remote event, with the
fields the two receivers probe: `interrupted`, `model_turn.parts` (each
part with optional `inline_data.data`), `turn_complete`, and the two
transcription texts. -/
structure ServerContent where
  interrupted : Bool
  modelTurn : Option (List (Option Bytes))
  turnComplete : Bool
  outputTranscription : Option String
  inputTranscription : Option String
deriving DecidableEq

/-- A `session_resumption_update` payload: `resumable` flag and optional
`new_handle` string. -/
structure ResumptionUpdate where
  resumable : Bool
  newHandle : Option String
deriving DecidableEq

/-- One event received from the remote session stream, with the fields
probed by the receivers of both variants. -/
structure Response where
  data : Option Bytes
  sessionResumptionUpdate : Option ResumptionUpdate
  goAway : Option Nat
  serverContent : Option ServerContent
deriving DecidableEq

/-- Outbound frames written to the client websocket. -/
inductive OutMsg
  | ready
  | connected (model : String)
  | audioB64 (data : Bytes)
  | audioBin (data : Bytes)
  | text (data : String)
  | turnComplete
  | readyForInput
  | interrupted (reason : String)
  | sessionId (handle : String)
deriving DecidableEq

/-- Audio segment emitted by `model_receiver` in `archive/main.py`
(lines 180-185): `response.data` is base64-encoded and sent as an
`audio` JSON frame. -/
def Main.audioSeg (r : Response) : List OutMsg :=
  match r.data with
  | some d => [OutMsg.audioB64 d]
  | none => []

/-- Transcript segment emitted by `model_receiver` in `archive/main.py`
(lines 190-193): a non-empty output transcription text is sent as a
`text` frame. -/
def Main.textSeg (r : Response) : List OutMsg :=
  match r.serverContent with
  | some sc =>
      (match sc.outputTranscription with
       | some t => if t = "" then [] else [OutMsg.text t]
       | none => [])
  | none => []

/-- Turn-boundary segment emitted by `model_receiver` in
`archive/main.py` (lines 196-198): on `turn_complete` the receiver sends
`turn_complete` and then immediately `ready_for_input`. -/
def Main.tcSeg (r : Response) : List OutMsg :=
  match r.serverContent with
  | some sc =>
      cond sc.turnComplete [OutMsg.turnComplete, OutMsg.readyForInput] []
  | none => []

/-- All outbound frames emitted by `model_receiver` in `archive/main.py`
for one remote event, in program order (lines 178-198).  Note this
receiver has no interruption handling and no session-resumption
handling. -/
def Main.receiverOut (r : Response) : List OutMsg :=
  Main.audioSeg r ++ Main.textSeg r ++ Main.tcSeg r

/-- Outbound frames emitted by `model_receiver` across a whole stream of
remote events, in arrival order. -/
def Main.receiverTrace (rs : List Response) : List OutMsg :=
  (rs.map Main.receiverOut).flatten

/-- A trace is well paired when every `turn_complete` frame is
immediately followed by a `ready_for_input` frame. -/
def pairedTrace : List OutMsg → Bool
  | [] => true
  | OutMsg.turnComplete :: rest =>
      (match rest.head? with
       | some OutMsg.readyForInput => true
       | _ => false) && pairedTrace rest
  | _ :: rest => pairedTrace rest

/-- Well-pairedness is preserved by concatenation of traces: a trace
ending in a bare `turn_complete` is not well paired, so the boundary
between the two traces cannot split a pair. -/
theorem pairedTrace_append (a b : List OutMsg)
    (ha : pairedTrace a = true) (hb : pairedTrace b = true) :
    pairedTrace (a ++ b) = true := by
  induction a with
  | nil => simpa using hb
  | cons x rest ih =>
      cases x with
      | turnComplete =>
          cases rest with
          | nil => simp [pairedTrace] at ha
          | cons y r2 =>
              cases y with
              | readyForInput =>
                  simp only [pairedTrace, List.head?, Bool.and_eq_true] at ha
                  simp only [List.cons_append, pairedTrace, List.head?,
                    Bool.and_eq_true]
                  exact ⟨rfl, ih ha.2⟩
              | ready => simp [pairedTrace] at ha
              | connected m => simp [pairedTrace] at ha
              | audioB64 d => simp [pairedTrace] at ha
              | audioBin d => simp [pairedTrace] at ha
              | text t => simp [pairedTrace] at ha
              | turnComplete => simp [pairedTrace] at ha
              | interrupted s => simp [pairedTrace] at ha
              | sessionId h => simp [pairedTrace] at ha
      | ready => exact ih (by simpa [pairedTrace] using ha)
      | connected m => exact ih (by simpa [pairedTrace] using ha)
      | audioB64 d => exact ih (by simpa [pairedTrace] using ha)
      | audioBin d => exact ih (by simpa [pairedTrace] using ha)
      | text t => exact ih (by simpa [pairedTrace] using ha)
      | readyForInput => exact ih (by simpa [pairedTrace] using ha)
      | interrupted s => exact ih (by simpa [pairedTrace] using ha)
      | sessionId h => exact ih (by simpa [pairedTrace] using ha)

/-- The frames `model_receiver` emits for one remote event are well
paired: `turn_complete` only ever appears directly followed by
`ready_for_input`. -/
theorem pairedTrace_receiverOut (r : Response) :
    pairedTrace (Main.receiverOut r) = true := by
  rcases r with ⟨d, sru, ga, sc⟩
  simp only [Main.receiverOut, Main.audioSeg, Main.textSeg, Main.tcSeg]
  cases d <;> cases sc <;>
    first
    | rfl
    | (rename_i sc
       rcases sc with ⟨i, mt, tc, ot, it⟩
       cases ot <;> cases tc <;>
         first
         | rfl
         | (rename_i t
            by_cases ht : t = "" <;> simp [ht, pairedTrace]))

/-- Session-resumption segment emitted by `receive_and_play` in
`server.py` (lines 104-114): a resumable update with a non-empty handle
is sent to the client as a `session_id` frame. -/
def Server.sessionIdSeg (r : Response) : List OutMsg :=
  match r.sessionResumptionUpdate with
  | some u =>
      if u.resumable then
        (match u.newHandle with
         | some h => if h = "" then [] else [OutMsg.sessionId h]
         | none => [])
      else []
  | none => []

/-- Interruption segment emitted by `receive_and_play` in `server.py`
(lines 122-129): when `server_content.interrupted` is set, one
`interrupted` frame with a fixed reason string is sent. -/
def Server.interruptSeg (r : Response) : List OutMsg :=
  match r.serverContent with
  | some sc =>
      cond sc.interrupted
        [OutMsg.interrupted "Response interrupted by user input"] []
  | none => []

/-- Model-audio segment emitted by `receive_and_play` in `server.py`
(lines 132-136): each part of `model_turn` with `inline_data` is sent to
the client as a raw binary frame. -/
def Server.audioSeg (r : Response) : List OutMsg :=
  match r.serverContent with
  | some sc =>
      (match sc.modelTurn with
       | some parts => parts.filterMap (fun p => p.map OutMsg.audioBin)
       | none => [])
  | none => []

/-- Turn-completion segment emitted by `receive_and_play` in `server.py`
(lines 139-143): on `turn_complete` only a `turn_complete` frame is sent
— there is no `ready_for_input` frame anywhere in this variant. -/
def Server.tcSeg (r : Response) : List OutMsg :=
  match r.serverContent with
  | some sc => cond sc.turnComplete [OutMsg.turnComplete] []
  | none => []

/-- Transcript segment emitted by `receive_and_play` in `server.py`
(lines 146-153), which in this variant comes after the turn-completion
segment: a non-empty output transcription text is sent as a `text`
frame. -/
def Server.textSeg (r : Response) : List OutMsg :=
  match r.serverContent with
  | some sc =>
      (match sc.outputTranscription with
       | some t => if t = "" then [] else [OutMsg.text t]
       | none => [])
  | none => []

/-- All outbound frames emitted by `receive_and_play` in `server.py` for
one remote event, in program order (lines 102-157). -/
def Server.receiverOut (r : Response) : List OutMsg :=
  Server.sessionIdSeg r ++ Server.interruptSeg r ++ Server.audioSeg r ++
    Server.tcSeg r ++ Server.textSeg r

/-- A remote event carrying only the turn-complete flag. -/
def turnCompleteEvent : Response :=
  ⟨none, none, none, some ⟨false, none, true, none, none⟩⟩

/-- A remote event carrying only the interruption flag. -/
def interruptionEvent : Response :=
  ⟨none, none, none, some ⟨true, none, false, none, none⟩⟩

/-- C2 counterexample: in `server.py` (lines 139-143), translating a
turn-complete event emits only a `turn_complete` frame — no
`ready_for_input` follows it (that frame type is never produced by this
variant), so the claim that in every variant of the relay `turn_complete`
is immediately followed by `ready_for_input` is false on the concrete
turn-complete event. -/
theorem c2_counterexample :
    Server.receiverOut turnCompleteEvent = [OutMsg.turnComplete]
    ∧ pairedTrace (Server.receiverOut turnCompleteEvent) = false :=
  ⟨rfl, rfl⟩

/-- C2 amended: in the `archive/main.py` variant, for every stream of
remote events, whenever the receiver emits `turn_complete` the very next
outbound frame is `ready_for_input`, with no other frame interleaved;
the `server.py` variant emits `turn_complete` with no `ready_for_input`
at all. -/
theorem c2_amended (rs : List Response) :
    pairedTrace (Main.receiverTrace rs) = true := by
  induction rs with
  | nil => rfl
  | cons r rest ih =>
      simp only [Main.receiverTrace, List.map_cons, List.flatten_cons]
      exact pairedTrace_append _ _ (pairedTrace_receiverOut r)
        (by simpa [Main.receiverTrace] using ih)

/-- Recognizer for outbound `interrupted` frames. -/
def isInterruptedMsg : OutMsg → Bool
  | OutMsg.interrupted _ => true
  | _ => false

/-- Whether a remote event carries the interruption flag, as probed by
`server.py` (line 123). -/
def Server.hasInterruption (r : Response) : Bool :=
  match r.serverContent with
  | some sc => sc.interrupted
  | none => false

/-- C4 counterexample: `model_receiver` in `archive/main.py`
(lines 175-205) has no interruption handling at all: on a remote event
carrying the interruption flag it emits no outbound frame whatsoever, so
the claim that in every variant of the relay an interruption event
produces exactly one outbound `interrupted` event is false on the
concrete interruption event. -/
theorem c4_counterexample :
    Main.receiverOut interruptionEvent = []
    ∧ (Main.receiverOut interruptionEvent).countP isInterruptedMsg = 0 :=
  ⟨rfl, rfl⟩

/-- The audio segment of the `server.py` receiver contains no
`interrupted` frame. -/
theorem countP_interrupted_audioSeg (parts : List (Option Bytes)) :
    (parts.filterMap (fun p => p.map OutMsg.audioBin)).countP
      isInterruptedMsg = 0 := by
  induction parts with
  | nil => rfl
  | cons p rest ih =>
      cases p with
      | none => simpa [List.filterMap_cons] using ih
      | some d => simpa [List.filterMap_cons, List.countP_cons,
          isInterruptedMsg] using ih

/-- C4 amended: in the `server.py` variant, every remote event carrying
the interruption flag produces exactly one outbound `interrupted` frame,
regardless of how many audio parts, transcripts or other fields the event
carries, and an event without the flag produces none; the
`archive/main.py` variant ignores interruption events entirely. -/
theorem c4_amended (r : Response) :
    (Server.receiverOut r).countP isInterruptedMsg =
      cond (Server.hasInterruption r) 1 0 := by
  rcases r with ⟨d, sru, ga, sc⟩
  simp only [Server.receiverOut, List.countP_append]
  have hsid : (Server.sessionIdSeg ⟨d, sru, ga, sc⟩).countP isInterruptedMsg = 0 := by
    rcases sru with _ | ⟨res, nh⟩
    · rfl
    · cases res
      · simp [Server.sessionIdSeg]
      · rcases nh with _ | h
        · simp [Server.sessionIdSeg]
        · by_cases hh : h = "" <;>
            simp [Server.sessionIdSeg, hh, isInterruptedMsg]
  rw [hsid]
  cases sc with
  | none => rfl
  | some sc0 =>
      rcases sc0 with ⟨i, mt, tc, ot, it⟩
      have haud : (Server.audioSeg
          ⟨d, sru, ga, some ⟨i, mt, tc, ot, it⟩⟩).countP isInterruptedMsg = 0 := by
        rcases mt with _ | parts
        · rfl
        · simpa [Server.audioSeg] using countP_interrupted_audioSeg parts
      have htc : (Server.tcSeg
          ⟨d, sru, ga, some ⟨i, mt, tc, ot, it⟩⟩).countP isInterruptedMsg = 0 := by
        cases tc <;> simp [Server.tcSeg, isInterruptedMsg]
      have htxt : (Server.textSeg
          ⟨d, sru, ga, some ⟨i, mt, tc, ot, it⟩⟩).countP isInterruptedMsg = 0 := by
        rcases ot with _ | t
        · rfl
        · by_cases ht : t = "" <;> simp [Server.textSeg, ht, isInterruptedMsg]
      rw [haud, htc, htxt]
      cases i <;> simp [Server.interruptSeg, Server.hasInterruption,
        isInterruptedMsg]

/-- State of an `asyncio.Queue`: `maxsize` (a `maxsize` of 0 means
unbounded, as in asyncio) and the FIFO list of items. -/
structure AQueue (α : Type) where
  maxsize : Nat
  items : List α
deriving DecidableEq

/-- Blocking `put`: returns `none` when the queue is full (the producer
blocks), otherwise appends the item at the back.  A queue is full when
`0 < maxsize ≤ length` (asyncio's `Queue.full`). -/
def AQueue.put (q : AQueue α) (x : α) : Option (AQueue α) :=
  if 0 < q.maxsize ∧ q.maxsize ≤ q.items.length then none
  else some ⟨q.maxsize, q.items ++ [x]⟩

/-- Blocking `get`: returns `none` on an empty queue (the consumer
blocks), otherwise removes the front item. -/
def AQueue.get (q : AQueue α) : Option (α × AQueue α) :=
  match q.items with
  | [] => none
  | x :: rest => some (x, ⟨q.maxsize, rest⟩)

/-- Iterated `put`, failing as soon as one enqueue blocks. -/
def AQueue.putList (q : AQueue α) : List α → Option (AQueue α)
  | [] => some q
  | x :: xs =>
      match q.put x with
      | none => none
      | some q2 => q2.putList xs

/-- The audio ingress queue of `archive/main.py` line 72:
`asyncio.Queue(maxsize=8)`, initially empty. -/
def Main.audioQueue : AQueue MainItem := ⟨8, []⟩

/-- The audio ingress queue of `server.py` line 57: `asyncio.Queue()`,
i.e. unbounded (`maxsize = 0`), initially empty. -/
def Server.audioQueue : AQueue Bytes := ⟨0, []⟩

/-- Queue states reachable from the freshly created queue of
`archive/main.py` by successful enqueues and dequeues. -/
inductive Main.QueueReach : AQueue MainItem → Prop
  | init : Main.QueueReach Main.audioQueue
  | putStep {q q2 : AQueue MainItem} {x : MainItem} :
      Main.QueueReach q → q.put x = some q2 → Main.QueueReach q2
  | getStep {q q2 : AQueue MainItem} {x : MainItem} :
      Main.QueueReach q → q.get = some (x, q2) → Main.QueueReach q2

/-- Reachable states of the `archive/main.py` queue keep `maxsize = 8`
and never hold more than 8 items. -/
theorem Main.queueReach_bound {q : AQueue MainItem} (h : Main.QueueReach q) :
    q.maxsize = 8 ∧ q.items.length ≤ 8 := by
  induction h with
  | init => exact ⟨rfl, by simp [Main.audioQueue]⟩
  | putStep hr hput ih =>
      rcases ih with ⟨hm, hl⟩
      rename_i q q2 x
      by_cases hfull : 0 < q.maxsize ∧ q.maxsize ≤ q.items.length
      · simp [AQueue.put, hfull] at hput
      · simp only [AQueue.put, if_neg hfull, Option.some.injEq] at hput
        subst hput
        constructor
        · exact hm
        · simp only [List.length_append, List.length_cons, List.length_nil]
          rw [hm] at hfull
          push_neg at hfull
          have := hfull (by norm_num)
          omega
  | getStep hr hget ih =>
      rcases ih with ⟨hm, hl⟩
      rename_i q q2 x
      rcases hq : q.items with _ | ⟨y, rest⟩
      · simp [AQueue.get, hq] at hget
      · simp only [AQueue.get, hq, Option.some.injEq, Prod.mk.injEq] at hget
        rcases hget with ⟨_, h2⟩
        subst h2
        refine ⟨hm, ?_⟩
        have : q.items.length ≤ 8 := hl
        rw [hq] at this
        simp only [List.length_cons] at this
        simpa using Nat.le_of_succ_le_succ (Nat.le_succ_of_le (by omega))

/-- C3 counterexample: the audio ingress queue of `server.py` is
`asyncio.Queue()` with no `maxsize`, i.e. unbounded: nine successive
enqueues of chunks with no intervening dequeue all succeed and leave the
queue holding 9 items — the ninth enqueue does not block, and the length
exceeds the capacity 8 the bounded variant uses, refuting the claim for
this variant. -/
theorem c3_counterexample :
    (Server.audioQueue.putList (List.replicate 9 [0])).map
      (fun q => q.items.length) = some 9 := by decide

/-- C3 amended: the queue of `archive/main.py` is bounded with capacity
8: every reachable queue state holds at most 8 items; enqueuing into a
queue already holding 8 items blocks the producer; and after one dequeue
from a full queue exactly one more enqueue succeeds (the next one blocks
again).  The `server.py` queue is unbounded and never blocks
producers. -/
theorem c3_amended :
    (∀ q : AQueue MainItem, Main.QueueReach q → q.items.length ≤ 8)
    ∧ (∀ (q : AQueue MainItem) (x : MainItem),
        q.maxsize = 8 → q.items.length = 8 → q.put x = none)
    ∧ (∀ (q q2 : AQueue MainItem) (x y : MainItem),
        q.maxsize = 8 → q.items.length = 8 → q.get = some (y, q2) →
          ∃ q3, q2.put x = some q3 ∧ ∀ z : MainItem, q3.put z = none) := by
  refine ⟨fun q h => (Main.queueReach_bound h).2, ?_, ?_⟩
  · intro q x hm hl
    simp [AQueue.put, hm, hl]
  · intro q q2 x y hm hl hget
    rcases hq : q.items with _ | ⟨z, rest⟩
    · simp [AQueue.get, hq] at hget
    · simp only [AQueue.get, hq, Option.some.injEq, Prod.mk.injEq] at hget
      rcases hget with ⟨_, h2⟩
      subst h2
      have hrest : rest.length = 7 := by
        have := hl
        rw [hq] at this
        simpa using this
      refine ⟨⟨8, rest ++ [x]⟩, ?_, ?_⟩
      · simp [AQueue.put, hm, hrest]
      · intro z2
        simp [AQueue.put, hrest]

/-- A full capacity-8 queue holding eight sentinels. -/
def fullQueue8 : AQueue MainItem := ⟨8, List.replicate 8 none⟩

/-- C3 witness: the amended theorem at concrete states — the initial
`archive/main.py` queue is within bound, enqueuing into the concrete full
queue blocks, and after one dequeue from it exactly one more enqueue
succeeds. -/
theorem c3_amended_witness :
    Main.audioQueue.items.length ≤ 8
    ∧ fullQueue8.put none = none
    ∧ ∃ q3, (⟨8, List.replicate 7 (none : MainItem)⟩ : AQueue MainItem).put
          none = some q3 ∧ ∀ z : MainItem, q3.put z = none := by
  refine ⟨c3_amended.1 Main.audioQueue Main.QueueReach.init, ?_, ?_⟩
  · exact c3_amended.2.1 fullQueue8 none rfl (by decide)
  · exact c3_amended.2.2 fullQueue8 ⟨8, List.replicate 7 none⟩ none none
      rfl (by decide) (by decide)

/-- The client registry `self.active_clients`: a dictionary from client
identifier to (the identity of) its websocket handle, modelled as an
association list with at most one entry per identifier. -/
abbrev Registry := List (Nat × Nat)

/-- Teardown removal in `handle_client` of `common.py` (lines 50-51):
`if client_id in self.active_clients: del self.active_clients[client_id]`.
On a dictionary the guarded delete removes the unique binding of the
identifier, i.e. every entry whose key equals it. -/
def unregisterClient (reg : Registry) (cid : Nat) : Registry :=
  if reg.any (fun e => e.1 == cid) then reg.filter (fun e => e.1 != cid)
  else reg

/-- After filtering out an identifier, no entry with it remains. -/
theorem any_filter_cid (reg : Registry) (cid : Nat) :
    (reg.filter (fun e => e.1 != cid)).any (fun e => e.1 == cid) = false := by
  induction reg with
  | nil => rfl
  | cons e rest ih =>
      by_cases h : e.1 = cid
      · simp [List.filter_cons, h, ih]
      · simp [List.filter_cons, List.any_cons, h, ih]

/-- After `unregisterClient`, the identifier is absent. -/
theorem any_unregister_cid (reg : Registry) (cid : Nat) :
    (unregisterClient reg cid).any (fun e => e.1 == cid) = false := by
  by_cases h : reg.any (fun e => e.1 == cid)
  · simp only [unregisterClient, h, if_true]
    exact any_filter_cid reg cid
  · simp [unregisterClient, h]

/-- Unregistering an identifier that is absent leaves the registry
unchanged (the membership guard fails and nothing is deleted). -/
theorem unregister_absent (reg : Registry) (cid : Nat)
    (h : reg.any (fun e => e.1 == cid) = false) :
    unregisterClient reg cid = reg := by
  simp [unregisterClient, h]

/-- Per-client lifecycle state relevant to teardown: the process-wide
registry and how many times this client's remote session has been
closed. -/
structure Lifecycle where
  registry : Registry
  remoteCloses : Nat
deriving DecidableEq

/-- The single teardown path: leaving the `async with` session context
closes the remote session once, then the `finally` block of
`handle_client` removes the registry entry. -/
def teardownOnce (st : Lifecycle) (cid : Nat) : Lifecycle :=
  ⟨unregisterClient st.registry cid, st.remoteCloses + 1⟩

/-- Supervision in `process_audio` of `archive/main.py` (lines 212-224):
`asyncio.wait(..., return_when=FIRST_COMPLETED)` resumes as soon as at
least one terminal condition (client disconnect, remote stream end)
holds — also when both hold at once — and the teardown path then runs
exactly once. -/
def superviseTeardown (clientDisconnected remoteEnded : Bool)
    (st : Lifecycle) (cid : Nat) : Lifecycle :=
  if clientDisconnected || remoteEnded then teardownOnce st cid else st

/-- C5: even when both terminal conditions are triggered, the teardown
path runs once: the remote session is closed exactly once, the client's
registry entry is removed (and a second unregister of the same
identifier changes nothing — idempotent), and unregistering an
identifier that is already absent leaves the registry unchanged. -/
theorem c5_teardown (st : Lifecycle) (cid : Nat) (reg : Registry) :
    (superviseTeardown true true st cid).remoteCloses = st.remoteCloses + 1
    ∧ (superviseTeardown true true st cid).registry.any
        (fun e => e.1 == cid) = false
    ∧ unregisterClient (unregisterClient reg cid) cid =
        unregisterClient reg cid
    ∧ (reg.any (fun e => e.1 == cid) = false →
        unregisterClient reg cid = reg) := by
  refine ⟨rfl, ?_, ?_, fun h => unregister_absent reg cid h⟩
  · simpa [superviseTeardown, teardownOnce] using
      any_unregister_cid st.registry cid
  · exact unregister_absent _ cid (any_unregister_cid reg cid)

/-- C5 witness: the theorem at a concrete lifecycle state and registry —
client 1 registered, both terminal conditions fire, the session close
count goes from 0 to 1, and unregistering the absent identifier 2 leaves
the registry `[(1, 10)]` unchanged. -/
theorem c5_teardown_witness :
    (superviseTeardown true true ⟨[(1, 10)], 0⟩ 1).remoteCloses = 1
    ∧ unregisterClient [(1, 10)] 2 = [(1, 10)] :=
  ⟨(c5_teardown ⟨[(1, 10)], 0⟩ 1 [(1, 10)]).1,
    (c5_teardown ⟨[(1, 10)], 0⟩ 2 [(1, 10)]).2.2.2 (by decide)⟩

/-- Actions of the supervisor at the end of `process_audio` in
`archive/main.py` (lines 212-224), followed by the `finally` removal in
`handle_client` of `common.py`. -/
inductive SupAct
  | waitFirstTerminal
  | cancelRouter
  | cancelBridge
  | cancelReceiver
  | joinAllThree
  | closeRemoteSession
  | unregisterEntry
deriving DecidableEq, BEq

/-- Recognizer for the cancellation requests. -/
def isCancelAct : SupAct → Bool
  | SupAct.cancelRouter => true
  | SupAct.cancelBridge => true
  | SupAct.cancelReceiver => true
  | _ => false

/-- Predicate that holds strictly before the join of all three tasks. -/
def beforeJoin : SupAct → Bool
  | SupAct.joinAllThree => false
  | _ => true

/-- Action sequence of the supervisor in `archive/main.py`, given which
of the three tasks already finished when `asyncio.wait` resumed
(`if not t.done(): t.cancel()` skips finished tasks; cancelling a
finished task would be a no-op anyway):
`asyncio.wait(FIRST_COMPLETED)`, cancel the pending tasks, then
`asyncio.gather(ws_task, send_task, recv_task, return_exceptions=True)`
joins all three, then the `async with` exit closes the remote session,
then `handle_client`'s `finally` removes the registry entry. -/
def Main.supervisorTrace (routerDone bridgeDone receiverDone : Bool) :
    List SupAct :=
  SupAct.waitFirstTerminal ::
    (cond routerDone [] [SupAct.cancelRouter] ++
     cond bridgeDone [] [SupAct.cancelBridge] ++
     cond receiverDone [] [SupAct.cancelReceiver]) ++
    [SupAct.joinAllThree, SupAct.closeRemoteSession, SupAct.unregisterEntry]

/-- How a task reacts to a signal while running. -/
inductive TaskSignal
  | cancelSignal
deriving DecidableEq

/-- Whether a task ends by finishing or by raising an error. -/
inductive TaskOutcome
  | finished
  | errorRaised
deriving DecidableEq

/-- Exit behaviour of `audio_sender` in `archive/main.py`
(lines 167-168): `except asyncio.CancelledError: pass` — cancellation is
swallowed, the task finishes without raising. -/
def Main.senderExit : TaskSignal → TaskOutcome
  | TaskSignal.cancelSignal => TaskOutcome.finished

/-- Exit behaviour of `model_receiver` in `archive/main.py`
(lines 200-201): `except asyncio.CancelledError: pass`. -/
def Main.receiverExit : TaskSignal → TaskOutcome
  | TaskSignal.cancelSignal => TaskOutcome.finished

/-- C9: for every combination of already-finished tasks, the supervisor
first observes the first terminal condition, all cancellation requests
happen before the join of all three tasks, the remote session is closed
only after that join (never while a task may still run), the registry
entry is removed only after the session close, and cancellation is not
surfaced as an error by the bridge or receiver tasks. -/
theorem c9_supervisor (routerDone bridgeDone receiverDone : Bool) :
    (Main.supervisorTrace routerDone bridgeDone receiverDone).head? =
        some SupAct.waitFirstTerminal
    ∧ (Main.supervisorTrace routerDone bridgeDone receiverDone).filter
          isCancelAct =
        ((Main.supervisorTrace routerDone bridgeDone receiverDone).takeWhile
          beforeJoin).filter isCancelAct
    ∧ (Main.supervisorTrace routerDone bridgeDone receiverDone).indexOf
          SupAct.joinAllThree <
        (Main.supervisorTrace routerDone bridgeDone receiverDone).indexOf
          SupAct.closeRemoteSession
    ∧ (Main.supervisorTrace routerDone bridgeDone receiverDone).indexOf
          SupAct.closeRemoteSession <
        (Main.supervisorTrace routerDone bridgeDone receiverDone).indexOf
          SupAct.unregisterEntry
    ∧ Main.senderExit TaskSignal.cancelSignal = TaskOutcome.finished
    ∧ Main.receiverExit TaskSignal.cancelSignal = TaskOutcome.finished := by
  cases routerDone <;> cases bridgeDone <;> cases receiverDone <;> decide

/-- Actions of `handle_client` in `common.py` (lines 32-51) together
with `process_audio` of `archive/main.py` (lines 67-83): send the
`ready` frame, register the client, open the remote session; only on
success is the `connected` frame sent and the session phase entered. -/
inductive ClAct
  | sendFrame (m : OutMsg)
  | registerEntry
  | openRemoteSession
  | removeEntry
deriving DecidableEq, BEq

/-- The frame a client-handler action writes to the client, if any. -/
def sentFrame : ClAct → Option OutMsg
  | ClAct.sendFrame m => some m
  | _ => none

/-- Predicate that holds strictly before the remote session is opened. -/
def beforeOpen : ClAct → Bool
  | ClAct.openRemoteSession => false
  | _ => true

/-- Model identifier of `archive/main.py` line 29. -/
def MODEL : String := "gemini-live-2.5-flash-preview"

/-- Action trace of one client connection: `handle_client` sends
`ready` first (`common.py` line 38), then `process_audio` registers the
client and attempts the remote connection; on success the `connected`
frame and the arbitrary session phase follow; in every case the
`finally` removal runs last.  On connection failure the exception is
caught in `handle_client` and nothing further is sent. -/
def handleClientTrace (connectOk : Bool) (sessionPhase : List ClAct) :
    List ClAct :=
  ClAct.sendFrame OutMsg.ready :: ClAct.registerEntry ::
    ClAct.openRemoteSession ::
    (cond connectOk (ClAct.sendFrame (OutMsg.connected MODEL) :: sessionPhase)
      []) ++ [ClAct.removeEntry]

/-- C10: for every client connection — whatever happens after session
establishment, and also when establishment fails — the first frame
written to the client is the `ready` control frame, and the only frame
written before the remote session is opened is that `ready` frame. -/
theorem c10_ready_first (connectOk : Bool) (sessionPhase : List ClAct) :
    ((handleClientTrace connectOk sessionPhase).filterMap sentFrame).head? =
        some OutMsg.ready
    ∧ ((handleClientTrace connectOk sessionPhase).takeWhile
        beforeOpen).filterMap sentFrame = [OutMsg.ready] := by
  cases connectOk <;>
    simp [handleClientTrace, sentFrame, beforeOpen, List.takeWhile_cons,
      List.filterMap_cons]
